import Mathlib

/-! Shallow embedding of `src/mobile/fix_all_overrides.py`, a one-shot script that
parses `flutter analyze` output for `annotate_overrides` diagnostics and inserts
`@override` lines into Dart source files.

Modelling conventions:
* A file's content is its `readlines()` result: a `List String` where each
  element is one line, normally terminated by `"\n"`.
* The file system is `String → Option (List String)`; `none` means the path
  does not exist (`os.path.exists` is false).
* Python `int` is `Int`; list indices are `Nat` obtained via `Int.toNat`.
* Python whitespace (for `\s`, `str.strip`, ASCII range) is the six characters
  space, tab, newline, carriage return, vertical tab, form feed.
* The regex `(\S+\.dart):(\d+):(\d+)` under `re.search` is modelled by a
  leftmost, greedy backtracking matcher specialised to this pattern.
-/

/-- Python whitespace test restricted to ASCII, as used by `\s` and `str.strip`. -/
def pyIsSpace (c : Char) : Bool :=
  c = ' ' || c = '\t' || c = '\n' || c = '\r' || c = '\x0b' || c = '\x0c'

/-- Model of Python `str.strip()`: drop whitespace from both ends. -/
def pyStrip (s : String) : String :=
  String.mk (((s.toList.dropWhile pyIsSpace).reverse.dropWhile pyIsSpace).reverse)

/-- Model of `re.match(r'^(\s*)', s).group(1)`: the leading-whitespace run. -/
def pyLeadingWS (s : String) : String :=
  String.mk (s.toList.takeWhile pyIsSpace)

/-- Model of Python `str.split('\n')`: split at every newline, keeping empties. -/
def pySplitNl : List Char → List (List Char)
  | [] => [[]]
  | c :: rest =>
    let r := pySplitNl rest
    if c = '\n' then [] :: r
    else
      match r with
      | [] => [[c]]
      | h :: t => (c :: h) :: t

/-- Model of Python substring containment `pat in s`. -/
def containsSeq (pat : List Char) : List Char → Bool
  | [] => pat.isPrefixOf []
  | c :: rest => pat.isPrefixOf (c :: rest) || containsSeq pat rest

/-- The marker substring identifying the lint diagnostic of interest. -/
def markerChars : List Char := "annotate_overrides".toList

/-- Value of a decimal-digit string, as Python `int` does on the regex capture. -/
def digitsToInt (ds : List Char) : Int :=
  ds.foldl (fun a c => a * 10 + ((c.toNat - 48 : Nat) : Int)) 0

/-- Tail of the pattern after the `\S+` part: literal `.dart`, `:`, a maximal
nonempty digit run, `:`, a maximal nonempty digit run. `pathRev` holds the
characters consumed by `\S+` in reverse. Returns (group1, digits1, digits2). -/
def matchTail (pathRev : List Char) (cs : List Char) :
    Option (List Char × List Char × List Char) :=
  if ['.', 'd', 'a', 'r', 't', ':'].isPrefixOf cs then
    let afterColon := cs.drop 6
    let d1 := afterColon.takeWhile Char.isDigit
    if d1 = [] then none
    else
      match afterColon.drop d1.length with
      | ':' :: r2 =>
        let d2 := r2.takeWhile Char.isDigit
        if d2 = [] then none
        else some (pathRev.reverse ++ ['.', 'd', 'a', 'r', 't'], d1, d2)
      | _ => none
  else none

/-- Greedy `\S+` at the current position: consume as many non-space characters
as possible, backtracking to shorter runs until `matchTail` succeeds. -/
def matchFrom (acc : List Char) : List Char → Option (List Char × List Char × List Char)
  | [] => none
  | c :: rest =>
    if pyIsSpace c then none
    else
      match matchFrom (c :: acc) rest with
      | some r => some r
      | none => matchTail (c :: acc) rest

/-- Model of `re.search(r'(\S+\.dart):(\d+):(\d+)', s)`: try each start
position left to right, greedy within a position. -/
def pySearchPat : List Char → Option (List Char × List Char × List Char)
  | [] => none
  | c :: rest =>
    match matchFrom [] (c :: rest) with
    | some r => some r
    | none => pySearchPat rest

/-- Model of `get_override_issues`, applied to the analyzer's captured stdout
text: scan each line for the marker, extract `(file_path, line, col)` via the
pattern, appending in emission order. -/
def get_override_issues (stdout : String) : List (String × Int × Int) :=
  (pySplitNl stdout.toList).foldl
    (fun issues line =>
      if containsSeq markerChars line then
        match pySearchPat line with
        | some (f, d1, d2) =>
          issues ++ [(String.mk f, digitsToInt d1, digitsToInt d2)]
        | none => issues
      else issues)
    []

/-- Per-line issue extraction: the loop body of `get_override_issues` viewed as
a partial map on one output line. -/
def lineIssue (line : List Char) : Option (String × Int × Int) :=
  if containsSeq markerChars line then
    match pySearchPat line with
    | some (f, d1, d2) => some (String.mk f, digitsToInt d1, digitsToInt d2)
    | none => none
  else none

/-- Result of one `fix_override` call: return value, resulting file content,
console lines printed, and whether the file was rewritten. -/
structure FixResult where
  fixed : Bool
  content : Option (List String)
  printed : List String
  wrote : Bool
deriving Repr, DecidableEq

/-- Model of Python `list.insert(i, x)` for a nonnegative index. -/
def pyInsert (i : Nat) (x : String) (l : List String) : List String :=
  l.take i ++ x :: l.drop i

/-- Model of `fix_override(file_path, line_num)`. `content` is the file's
current `readlines()` image, `none` when the file does not exist. -/
def fix_override (file_path : String) (content : Option (List String))
    (line_num : Int) : FixResult :=
  match content with
  | none => ⟨false, none, ["File not found: " ++ file_path], false⟩
  | some lines =>
    if line_num ≤ 0 ∨ (lines.length : Int) < line_num then
      ⟨false, some lines,
        ["Invalid line number " ++ toString line_num ++ " for " ++ file_path], false⟩
    else
      let target := lines.getD (line_num - 1).toNat ""
      let indent := pyLeadingWS target
      if 1 < line_num ∧ pyStrip (lines.getD (line_num - 2).toNat "") = "@override" then
        ⟨false, some lines,
          ["@override already exists before line " ++ toString line_num ++ " in "
            ++ file_path], false⟩
      else
        ⟨true, some (pyInsert (line_num - 1).toNat (indent ++ "@override\n") lines),
          [], true⟩

/-- The per-file sort in `main`: `sorted(line_nums, reverse=True)`. -/
def mainSortLines (nums : List Int) : List Int :=
  List.insertionSort (· ≥ ·) nums

/-- The inner loop of `main` over one file's (already sorted) line numbers,
threading the file content through successive `fix_override` calls and
counting successes. -/
def processLines (file_path : String) (content : Option (List String))
    (nums : List Int) : Option (List String) × Nat :=
  nums.foldl
    (fun acc ln =>
      let r := fix_override file_path acc.1 ln
      (r.content, if r.fixed then acc.2 + 1 else acc.2))
    (content, 0)

/-- One file's processing in `main`: sort the reported lines descending, then
apply the fixes. -/
def mainProcessFile (file_path : String) (content : Option (List String))
    (nums : List Int) : Option (List String) × Nat :=
  processLines file_path content (mainSortLines nums)

/-- The `files_to_fix` grouping of `main`: insertion-ordered map from path to
its reported line numbers, appended in issue order. -/
def addIssue (acc : List (String × List Int)) (p : String) (ln : Int) :
    List (String × List Int) :=
  match acc with
  | [] => [(p, [ln])]
  | (q, ls) :: rest =>
    if q = p then (q, ls ++ [ln]) :: rest else (q, ls) :: addIssue rest p ln

/-- Build `files_to_fix` from the issue list. -/
def groupIssues (issues : List (String × Int × Int)) : List (String × List Int) :=
  issues.foldl (fun acc i => addIssue acc i.1 i.2.1) []

/-- Model of `main`'s fixing phase: extract issues from the analyzer stdout,
group by file, process each file's lines in descending order, and return the
updated file system together with the total fix count. -/
def mainRun (fs : String → Option (List String)) (stdout : String) :
    (String → Option (List String)) × Nat :=
  let issues := get_override_issues stdout
  (groupIssues issues).foldl
    (fun acc g =>
      let r := mainProcessFile g.1 (acc.1 g.1) g.2
      (fun q => if q = g.1 then r.1 else acc.1 q, acc.2 + r.2))
    (fs, 0)

/-- The file content produced by the success path of `fix_override`: the
annotation line, indented like the target, inserted just before the target. -/
def overrideInsert (lines : List String) (L : Int) : List String :=
  pyInsert (L - 1).toNat (pyLeadingWS (lines.getD (L - 1).toNat "") ++ "@override\n") lines

/-- A 25-line Dart-like file; line 10 is indented by two spaces and line 20 by
four, matching the end-to-end scenario of the specification. -/
def demoFile : List String :=
  ["l1\n", "l2\n", "l3\n", "l4\n", "l5\n", "l6\n", "l7\n", "l8\n", "l9\n",
   "  t10\n", "l11\n", "l12\n", "l13\n", "l14\n", "l15\n", "l16\n", "l17\n",
   "l18\n", "l19\n", "    t20\n", "l21\n", "l22\n", "l23\n", "l24\n", "l25\n"]

/-- A file system holding only `a.dart`, with `demoFile` as its content. -/
def demoFS : String → Option (List String) :=
  fun q => if q = "a.dart" then some demoFile else none

/-- Analyzer output reporting `a.dart:10:3` and `a.dart:20:5` on marker lines. -/
def demoStdout : String :=
  "info a.dart:10:3 annotate_overrides\ninfo a.dart:20:5 annotate_overrides"

/-! ## Helper lemmas about the embedded operations -/

theorem pyInsert_length {i : Nat} {l : List String} (x : String) (h : i ≤ l.length) :
    (pyInsert i x l).length = l.length + 1 := by
  simp [pyInsert]
  omega

theorem pyInsert_getD_lt {i j : Nat} {l : List String} (x d : String)
    (hj : j < i) (hi : i ≤ l.length) :
    (pyInsert i x l).getD j d = l.getD j d := by
  unfold pyInsert
  rw [List.getD_eq_getElem?_getD, List.getD_eq_getElem?_getD, List.getElem?_append]
  rw [if_pos (by simp [List.length_take]; omega)]
  rw [List.getElem?_take, if_pos hj]

theorem pyInsert_getD_self {i : Nat} {l : List String} (x d : String)
    (hi : i ≤ l.length) :
    (pyInsert i x l).getD i d = x := by
  unfold pyInsert
  rw [List.getD_eq_getElem?_getD]
  rw [List.getElem?_append_right (by simp [List.length_take])]
  have hlen : (l.take i).length = i := by simp [List.length_take]; omega
  rw [hlen, Nat.sub_self, List.getElem?_cons_zero, Option.getD_some]

theorem pyInsert_getD_succ {i j : Nat} {l : List String} (x d : String)
    (hi : i ≤ l.length) (hj : i ≤ j) :
    (pyInsert i x l).getD (j + 1) d = l.getD j d := by
  unfold pyInsert
  rw [List.getD_eq_getElem?_getD, List.getD_eq_getElem?_getD]
  rw [List.getElem?_append_right (by simp [List.length_take]; omega)]
  have hlen : (l.take i).length = i := by simp [List.length_take]; omega
  rw [hlen]
  rw [show j + 1 - i = (j - i) + 1 from by omega]
  rw [List.getElem?_cons_succ, List.getElem?_drop]
  rw [show i + (j - i) = j from by omega]

theorem pyInsert_sublist (i : Nat) (x : String) (l : List String) :
    l.Sublist (pyInsert i x l) := by
  unfold pyInsert
  conv_lhs => rw [← List.take_append_drop i l]
  exact (List.Sublist.refl _).append (List.sublist_cons_self x _)

theorem takeWhile_append_of_all {p : Char → Bool} :
    ∀ (A B : List Char), (∀ a ∈ A, p a = true) →
      (A ++ B).takeWhile p = A ++ B.takeWhile p := by
  intro A B h
  induction A with
  | nil => simp
  | cons c cs ih =>
    simp only [List.cons_append, List.takeWhile_cons, h c (by simp)]
    rw [ih fun a ha => h a (by simp [ha])]
    simp

theorem pyLeadingWS_marker (s : String) :
    pyLeadingWS (pyLeadingWS s ++ "@override\n") = pyLeadingWS s := by
  unfold pyLeadingWS
  have h1 : (String.mk (s.toList.takeWhile pyIsSpace) ++ "@override\n").toList
      = s.toList.takeWhile pyIsSpace ++ "@override\n".toList := by
    simp [String.toList]
  rw [h1]
  rw [takeWhile_append_of_all _ _ fun a ha => List.mem_takeWhile_imp ha]
  have h2 : ("@override\n".toList).takeWhile pyIsSpace = [] := by decide
  rw [h2, List.append_nil]

theorem digitsFold_nonneg :
    ∀ (ds : List Char) (a : Int), 0 ≤ a →
      0 ≤ ds.foldl (fun a c => a * 10 + ((c.toNat - 48 : Nat) : Int)) a
  | [], _, h => h
  | c :: cs, a, h =>
    digitsFold_nonneg cs _
      (add_nonneg (mul_nonneg h (by norm_num)) (Int.natCast_nonneg _))

theorem digitsToInt_nonneg (ds : List Char) : 0 ≤ digitsToInt ds :=
  digitsFold_nonneg ds 0 le_rfl

theorem foldl_optToList (g : List Char → Option (String × Int × Int)) :
    ∀ (L : List (List Char)) (acc),
      L.foldl (fun is l => is ++ (g l).toList) acc = acc ++ L.filterMap g := by
  intro L
  induction L with
  | nil => simp
  | cons h t ih =>
    intro acc
    simp only [List.foldl_cons, List.filterMap_cons]
    rw [ih]
    cases g h <;> simp

theorem get_override_issues_eq_filterMap (out : String) :
    get_override_issues out = (pySplitNl out.toList).filterMap lineIssue := by
  unfold get_override_issues
  have hbody : (fun (issues : List (String × Int × Int)) (line : List Char) =>
      if containsSeq markerChars line then
        match pySearchPat line with
        | some (f, d1, d2) =>
          issues ++ [(String.mk f, digitsToInt d1, digitsToInt d2)]
        | none => issues
      else issues)
      = fun is l => is ++ (lineIssue l).toList := by
    funext is l
    unfold lineIssue
    split
    · cases h : pySearchPat l with
      | none => simp
      | some r =>
        obtain ⟨f, d1, d2⟩ := r
        simp
    · simp
  rw [hbody, foldl_optToList]
  simp

theorem fix_override_success_eq (p : String) (lines : List String) (L : Int)
    (h1 : 1 ≤ L) (h2 : L ≤ (lines.length : Int))
    (h3 : 1 < L → pyStrip (lines.getD (L - 2).toNat "") ≠ "@override") :
    fix_override p (some lines) L = ⟨true, some (overrideInsert lines L), [], true⟩ := by
  have hne : ¬(L ≤ 0 ∨ (lines.length : Int) < L) := by omega
  have hg : ¬(1 < L ∧ pyStrip (lines.getD (L - 2).toNat "") = "@override") := by
    rintro ⟨ha, hb⟩
    exact h3 ha hb
  simp only [fix_override, if_neg hne, if_neg hg]
  rfl

theorem fix_override_fixed_eq (p : String) (lines : List String) (L : Int)
    (h : (fix_override p (some lines) L).fixed = true) :
    fix_override p (some lines) L = ⟨true, some (overrideInsert lines L), [], true⟩ := by
  simp only [fix_override] at h ⊢
  split_ifs at h ⊢
  any_goals rfl

theorem fix_override_one (p : String) (lines : List String) (h : lines ≠ []) :
    fix_override p (some lines) 1 =
      ⟨true, some ((pyLeadingWS (lines.getD 0 "") ++ "@override\n") :: lines), [], true⟩ := by
  have hlen : 0 < lines.length := List.length_pos.mpr h
  have hne : ¬((1 : Int) ≤ 0 ∨ (lines.length : Int) < 1) := by omega
  simp only [fix_override, if_neg hne]
  rfl

theorem mainSortLines_sorted (nums : List Int) :
    List.Sorted (· ≥ ·) (mainSortLines nums) :=
  List.sorted_insertionSort _ _

theorem mainSortLines_pair (L : Int) : mainSortLines [L, L] = [L, L] := by
  simp [mainSortLines, List.insertionSort, List.orderedInsert]

theorem fix_override_fixed_range (p : String) (lines : List String) (L : Int)
    (h : (fix_override p (some lines) L).fixed = true) :
    1 ≤ L ∧ L ≤ (lines.length : Int) := by
  have hr : ¬(L ≤ 0 ∨ (lines.length : Int) < L) := by
    intro hch
    simp only [fix_override, if_pos hch] at h
    exact Bool.false_ne_true h
  omega

theorem overrideInsert_length {lines : List String} {L : Int}
    (h : (L - 1).toNat ≤ lines.length) :
    (overrideInsert lines L).length = lines.length + 1 :=
  pyInsert_length _ h

theorem overrideInsert_getD_lt {lines : List String} {L : Int} {j : Nat}
    (hj : j < (L - 1).toNat) (h : (L - 1).toNat ≤ lines.length) :
    (overrideInsert lines L).getD j "" = lines.getD j "" :=
  pyInsert_getD_lt _ _ hj h

theorem overrideInsert_getD_self {lines : List String} {L : Int}
    (h : (L - 1).toNat ≤ lines.length) :
    (overrideInsert lines L).getD (L - 1).toNat ""
      = pyLeadingWS (lines.getD (L - 1).toNat "") ++ "@override\n" :=
  pyInsert_getD_self _ _ h

theorem overrideInsert_getD_succ {lines : List String} {L : Int}
    (h : (L - 1).toNat ≤ lines.length) :
    (overrideInsert lines L).getD ((L - 1).toNat + 1) "" = lines.getD (L - 1).toNat "" :=
  pyInsert_getD_succ _ _ h le_rfl

/-! ## Claim theorems -/

/-- Claim C1: for every existing file and every line number in `[1, total_lines]`
where no guard triggers (for `line_number > 1` the trimmed preceding line is not
`@override`), `fix_override` returns true and rewrites the file so its line
count grows by exactly one, the new line sits immediately before the original
target line, and its content is the target's leading whitespace followed by
`@override`. -/
theorem claim_C1_success_insert (p : String) (lines : List String) (L : Int)
    (h1 : 1 ≤ L) (h2 : L ≤ (lines.length : Int))
    (h3 : 1 < L → pyStrip (lines.getD (L - 2).toNat "") ≠ "@override") :
    fix_override p (some lines) L = ⟨true, some (overrideInsert lines L), [], true⟩
    ∧ (overrideInsert lines L).length = lines.length + 1
    ∧ (overrideInsert lines L).getD (L - 1).toNat ""
        = pyLeadingWS (lines.getD (L - 1).toNat "") ++ "@override\n"
    ∧ (overrideInsert lines L).getD ((L - 1).toNat + 1) "" = lines.getD (L - 1).toNat "" := by
  have hil : (L - 1).toNat ≤ lines.length := by omega
  exact ⟨fix_override_success_eq p lines L h1 h2 h3, overrideInsert_length hil,
    overrideInsert_getD_self hil, overrideInsert_getD_succ hil⟩

/-- Witness for C1 at a concrete one-line file. -/
theorem claim_C1_success_insert_witness :
    ((1 : Int) ≤ 1 ∧ (1 : Int) ≤ (((["  a\n"] : List String).length : Nat) : Int))
    ∧ fix_override "f.dart" (some ["  a\n"]) 1 =
        ⟨true, some (overrideInsert ["  a\n"] 1), [], true⟩ :=
  ⟨⟨by decide, by decide⟩,
   (claim_C1_success_insert "f.dart" ["  a\n"] 1 (by decide) (by decide)
     (fun h => absurd h (by decide))).1⟩

/-- Claim C3: for every existing file and every line number outside
`[1, total_lines]`, `fix_override` returns false, prints an "Invalid line
number" diagnostic, and leaves the file unchanged without writing. -/
theorem claim_C3_invalid_line (p : String) (lines : List String) (L : Int)
    (h : L ≤ 0 ∨ (lines.length : Int) < L) :
    fix_override p (some lines) L =
      ⟨false, some lines,
        ["Invalid line number " ++ toString L ++ " for " ++ p], false⟩ := by
  simp only [fix_override, if_pos h]

/-- Witness for C3 at line number 5 of a one-line file. -/
theorem claim_C3_invalid_line_witness :
    ((5 : Int) ≤ 0 ∨ (((["a\n"] : List String).length : Nat) : Int) < 5)
    ∧ fix_override "g.dart" (some ["a\n"]) 5 =
        ⟨false, some ["a\n"],
          ["Invalid line number " ++ toString (5 : Int) ++ " for " ++ "g.dart"], false⟩ :=
  ⟨by decide, claim_C3_invalid_line "g.dart" ["a\n"] 5 (by decide)⟩

/-- Claim C4: for every existing file and in-range line number at least 2, if
the trimmed line immediately preceding the target equals `@override`,
`fix_override` returns false, prints an "@override already exists" diagnostic,
and leaves the file unchanged. -/
theorem claim_C4_already_exists (p : String) (lines : List String) (L : Int)
    (h1 : 2 ≤ L) (h2 : L ≤ (lines.length : Int))
    (h3 : pyStrip (lines.getD (L - 2).toNat "") = "@override") :
    fix_override p (some lines) L =
      ⟨false, some lines,
        ["@override already exists before line " ++ toString L ++ " in " ++ p],
        false⟩ := by
  have hne : ¬(L ≤ 0 ∨ (lines.length : Int) < L) := by omega
  have hg : 1 < L ∧ pyStrip (lines.getD (L - 2).toNat "") = "@override" := ⟨by omega, h3⟩
  simp only [fix_override, if_neg hne, if_pos hg]

/-- Witness for C4 at line 2 of a file whose first line is `@override`. -/
theorem claim_C4_already_exists_witness :
    ((2 : Int) ≤ 2 ∧ (2 : Int) ≤ (((["@override\n", "b\n"] : List String).length : Nat) : Int)
      ∧ pyStrip ((["@override\n", "b\n"] : List String).getD ((2 : Int) - 2).toNat "")
          = "@override")
    ∧ fix_override "h.dart" (some ["@override\n", "b\n"]) 2 =
        ⟨false, some ["@override\n", "b\n"],
          ["@override already exists before line " ++ toString (2 : Int) ++ " in "
            ++ "h.dart"], false⟩ :=
  ⟨⟨by decide, by decide, by decide⟩,
   claim_C4_already_exists "h.dart" ["@override\n", "b\n"] 2 (by decide) (by decide)
     (by decide)⟩

/-- Claim C7: for every nonexistent file path and every line number,
`fix_override` returns false with a "File not found" console message; in this
total model no exception is possible, and the guard failures are signalled only
through the boolean result. -/
theorem claim_C7_file_not_found (p : String) (L : Int) :
    fix_override p none L = ⟨false, none, ["File not found: " ++ p], false⟩ := rfl

/-- Claim C9: every successful `fix_override` call produces exactly the original
lines with one new line inserted at the target position: the result is
`take (L-1) ++ [annotation] ++ drop (L-1)`, and the original list is a sublist
of the result, so no original line is modified, reordered, or removed. -/
theorem claim_C9_frame (p : String) (lines : List String) (L : Int)
    (h : (fix_override p (some lines) L).fixed = true) :
    (fix_override p (some lines) L).content = some (overrideInsert lines L)
    ∧ overrideInsert lines L
        = lines.take (L - 1).toNat
            ++ (pyLeadingWS (lines.getD (L - 1).toNat "") ++ "@override\n")
            :: lines.drop (L - 1).toNat
    ∧ lines.Sublist (overrideInsert lines L) := by
  refine ⟨?_, rfl, pyInsert_sublist _ _ _⟩
  rw [fix_override_fixed_eq p lines L h]

/-- Witness for C9 at a concrete successful call. -/
theorem claim_C9_frame_witness :
    (fix_override "w.dart" (some ["x\n"]) 1).fixed = true
    ∧ (fix_override "w.dart" (some ["x\n"]) 1).content = some (overrideInsert ["x\n"] 1) :=
  ⟨by decide, (claim_C9_frame "w.dart" ["x\n"] 1 (by decide)).1⟩

/-- Claim C10: for every existing nonempty file, `fix_override` at line 1 skips
the pre-existing-annotation guard, returns true, and prepends an annotation
line even when line 1 is itself `@override`; a repeated call at line 1 prepends
another identical annotation line. -/
theorem claim_C10_line_one (p : String) (lines : List String) (h : lines ≠ []) :
    fix_override p (some lines) 1 =
      ⟨true, some ((pyLeadingWS (lines.getD 0 "") ++ "@override\n") :: lines), [], true⟩
    ∧ fix_override p (some ((pyLeadingWS (lines.getD 0 "") ++ "@override\n") :: lines)) 1 =
      ⟨true, some ((pyLeadingWS (lines.getD 0 "") ++ "@override\n")
        :: (pyLeadingWS (lines.getD 0 "") ++ "@override\n") :: lines), [], true⟩ := by
  constructor
  · exact fix_override_one p lines h
  · have h2 := fix_override_one p
      ((pyLeadingWS (lines.getD 0 "") ++ "@override\n") :: lines) (by simp)
    rw [h2]
    simp only [List.getD_cons_zero, pyLeadingWS_marker]

/-- Witness for C10 on a file whose single line is already `@override`. -/
theorem claim_C10_line_one_witness :
    (["@override\n"] : List String) ≠ []
    ∧ fix_override "k.dart" (some ["@override\n"]) 1 =
        ⟨true, some ((pyLeadingWS ((["@override\n"] : List String).getD 0 "")
          ++ "@override\n") :: ["@override\n"]), [], true⟩ :=
  ⟨by decide, (claim_C10_line_one "k.dart" ["@override\n"] (by decide)).1⟩

/-- Claim C8: when the same (file, line) is reported twice for a line `L ≥ 2`
whose original preceding line does not trim to `@override`, the per-file loop
calls `fix_override` twice with the same `L` and both calls insert, so the file
gains two identical annotation lines at positions `L` and `L+1` (1-based). -/
theorem claim_C8_duplicate_reports (p : String) (lines : List String) (L : Int)
    (h1 : 2 ≤ L) (h2 : L ≤ (lines.length : Int))
    (h3 : pyStrip (lines.getD (L - 2).toNat "") ≠ "@override") :
    mainProcessFile p (some lines) [L, L]
        = (some (overrideInsert (overrideInsert lines L) L), 2)
    ∧ (overrideInsert (overrideInsert lines L) L).length = lines.length + 2
    ∧ (overrideInsert (overrideInsert lines L) L).getD (L - 1).toNat ""
        = pyLeadingWS (lines.getD (L - 1).toNat "") ++ "@override\n"
    ∧ (overrideInsert (overrideInsert lines L) L).getD ((L - 1).toNat + 1) ""
        = pyLeadingWS (lines.getD (L - 1).toNat "") ++ "@override\n" := by
  have hil : (L - 1).toNat ≤ lines.length := by omega
  have key1 := fix_override_success_eq p lines L (by omega) h2 (fun _ => h3)
  have hlen1 : (overrideInsert lines L).length = lines.length + 1 :=
    overrideInsert_length hil
  have hprev : (overrideInsert lines L).getD (L - 2).toNat ""
      = lines.getD (L - 2).toNat "" := overrideInsert_getD_lt (by omega) hil
  have htgt : (overrideInsert lines L).getD (L - 1).toNat ""
      = pyLeadingWS (lines.getD (L - 1).toNat "") ++ "@override\n" :=
    overrideInsert_getD_self hil
  have hil2 : (L - 1).toNat ≤ (overrideInsert lines L).length := by
    rw [hlen1]
    omega
  have key2 := fix_override_success_eq p (overrideInsert lines L) L (by omega)
    (by rw [hlen1]; push_cast; omega) (fun _ => by rw [hprev]; exact h3)
  refine ⟨?_, ?_, ?_, ?_⟩
  · simp only [mainProcessFile, mainSortLines_pair, processLines,
      List.foldl_cons, List.foldl_nil, key1]
    simp only [key2]
    rfl
  · rw [overrideInsert_length hil2, hlen1]
  · rw [overrideInsert_getD_self hil2, htgt, pyLeadingWS_marker]
  · rw [overrideInsert_getD_succ hil2, htgt]

/-- Witness for C8: duplicate reports of line 2 of a two-line file. -/
theorem claim_C8_duplicate_reports_witness :
    ((2 : Int) ≤ 2 ∧ (2 : Int) ≤ (((["a\n", "  b\n"] : List String).length : Nat) : Int)
      ∧ pyStrip ((["a\n", "  b\n"] : List String).getD ((2 : Int) - 2).toNat "")
          ≠ "@override")
    ∧ mainProcessFile "d.dart" (some ["a\n", "  b\n"]) [2, 2]
        = (some (overrideInsert (overrideInsert ["a\n", "  b\n"] 2) 2), 2) :=
  ⟨⟨by decide, by decide, by decide⟩,
   (claim_C8_duplicate_reports "d.dart" ["a\n", "  b\n"] 2 (by decide) (by decide)
     (by decide)).1⟩

/-- Claim C2 counterexample: when the same line number is reported twice, the
order `main` processes is `sorted(·, reverse=True)`, which is not strictly
descending: for reports `[7, 7]` it is `[7, 7]`. -/
theorem claim_C2_counterexample :
    mainSortLines [7, 7] = [7, 7]
    ∧ ¬ List.Sorted (fun a b : Int => b < a) (mainSortLines [7, 7]) :=
  ⟨by decide, by decide⟩

/-- Claim C2 (amended): `main` processes each file's reported line numbers in
descending (non-increasing) order — strictly descending whenever the reported
numbers are distinct — and inserting at line `L` leaves every line at a
position below `L` in place; concretely, for reports `a.dart:10:3` and
`a.dart:20:5` on a 25-line file, the run performs 2 fixes, the file grows to
27 lines, and each original target line has an `@override` line directly above
it with matching indentation. -/
theorem claim_C2_descending_amended :
    (∀ nums : List Int, List.Sorted (· ≥ ·) (mainSortLines nums))
    ∧ (∀ nums : List Int, nums.Nodup →
        List.Sorted (fun a b : Int => b < a) (mainSortLines nums))
    ∧ (∀ (p : String) (lines : List String) (L : Int) (j : Nat),
        (fix_override p (some lines) L).fixed = true → j < (L - 1).toNat →
        (overrideInsert lines L).getD j "" = lines.getD j "")
    ∧ ((mainRun demoFS demoStdout).2 = 2
        ∧ ((mainRun demoFS demoStdout).1 "a.dart").isSome = true
        ∧ (((mainRun demoFS demoStdout).1 "a.dart").getD []).length = 27
        ∧ (((mainRun demoFS demoStdout).1 "a.dart").getD []).getD 9 "" = "  @override\n"
        ∧ (((mainRun demoFS demoStdout).1 "a.dart").getD []).getD 10 "" = demoFile.getD 9 ""
        ∧ (((mainRun demoFS demoStdout).1 "a.dart").getD []).getD 20 "" = "    @override\n"
        ∧ (((mainRun demoFS demoStdout).1 "a.dart").getD []).getD 21 ""
            = demoFile.getD 19 "") := by
  refine ⟨mainSortLines_sorted, ?_, ?_, by decide⟩
  · intro nums h
    have hs : List.Sorted (· ≥ ·) (mainSortLines nums) := mainSortLines_sorted nums
    have hn : (mainSortLines nums).Nodup :=
      ((List.perm_insertionSort _ nums).nodup_iff).mpr h
    exact List.Pairwise.imp (fun hab => lt_of_le_of_ne hab.1 (Ne.symm hab.2)) (hs.and hn)
  · intro p lines L j hfix hj
    have hr := fix_override_fixed_range p lines L hfix
    exact overrideInsert_getD_lt hj (by omega)

/-- Witness for the amended C2: strict order on distinct reports, and a line
below the insertion point left unchanged by a successful fix. -/
theorem claim_C2_descending_amended_witness :
    List.Sorted (fun a b : Int => b < a) (mainSortLines [4, 9])
    ∧ (overrideInsert ["u\n", "v\n"] 2).getD 0 "" = (["u\n", "v\n"] : List String).getD 0 "" :=
  ⟨claim_C2_descending_amended.2.1 [4, 9] (by decide),
   claim_C2_descending_amended.2.2.1 "b.dart" ["u\n", "v\n"] 2 0 (by decide) (by decide)⟩

/-- Claim C5 counterexample: the digit pattern also matches `0`, so for the
analyzer text `annotate_overrides a.dart:0:7` the extractor produces an issue
whose line number is 0 — not a strictly positive integer. -/
theorem claim_C5_counterexample :
    get_override_issues "annotate_overrides a.dart:0:7" = [("a.dart", 0, 7)]
    ∧ ¬ ∀ x ∈ get_override_issues "annotate_overrides a.dart:0:7",
        0 < x.2.1 ∧ 0 < x.2.2 :=
  ⟨by decide, by decide⟩

/-- Claim C5 (amended): every issue produced by the extractor, on any analyzer
output text, carries a nonnegative line number and a nonnegative column
number. -/
theorem claim_C5_nonneg (out : String) (x : String × Int × Int)
    (h : x ∈ get_override_issues out) : 0 ≤ x.2.1 ∧ 0 ≤ x.2.2 := by
  rw [get_override_issues_eq_filterMap] at h
  obtain ⟨l, _, hl⟩ := List.mem_filterMap.mp h
  unfold lineIssue at hl
  split at hl
  · split at hl
    · injection hl with hx
      subst hx
      exact ⟨digitsToInt_nonneg _, digitsToInt_nonneg _⟩
    · exact absurd hl (by simp)
  · exact absurd hl (by simp)

/-- Witness for the amended C5 on a concrete analyzer line. -/
theorem claim_C5_nonneg_witness :
    (("a.dart", (10 : Int), (3 : Int)) ∈ get_override_issues "annotate_overrides a.dart:10:3")
    ∧ (0 ≤ (10 : Int) ∧ 0 ≤ (3 : Int)) :=
  ⟨by decide, claim_C5_nonneg "annotate_overrides a.dart:10:3" ("a.dart", 10, 3) (by decide)⟩

/-- Claim C6: the extractor produces exactly one issue per output line that
contains the marker and matches the pattern (a `filterMap` over the split
lines, hence order-preserving and not deduplicated); marker lines that fail
the pattern, and lines without the marker, contribute nothing; output with no
marker lines yields the empty issue list. -/
theorem claim_C6_extractor (out : String) :
    get_override_issues out = (pySplitNl out.toList).filterMap lineIssue
    ∧ ((∀ l ∈ pySplitNl out.toList, containsSeq markerChars l = false) →
        get_override_issues out = [])
    ∧ get_override_issues "b.dart:3:4 annotate_overrides\nb.dart:3:4 annotate_overrides"
        = [("b.dart", 3, 4), ("b.dart", 3, 4)] := by
  refine ⟨get_override_issues_eq_filterMap out, ?_, by decide⟩
  intro hmk
  rw [get_override_issues_eq_filterMap, List.filterMap_eq_nil_iff]
  intro l hl
  simp [lineIssue, hmk l hl]

/-- Witness for C6: text with no marker line yields no issues. -/
theorem claim_C6_extractor_witness :
    get_override_issues "no marker here" = [] :=
  (claim_C6_extractor "no marker here").2.1 (by decide)
